import Mathlib

/-!
Shallow embedding of the progression/analytics engine of `potbot.py`
(XP/level/prestige state machine, daily-bonus and streak logic, daily
statistics rollover, leaderboard ranking and JSON persistence), together
with proofs about the claims of the specification.

Python floats are modelled as exact rationals (`ℚ`), Python dicts as
association lists in insertion order, and Python sets as duplicate-free
lists in insertion order.  Randomness (bonus-XP roll) and wall-clock
inputs (timestamps, calendar dates) are passed as explicit parameters.
-/

/-! ### Configuration constants (from `CONFIG` in `potbot.py`) -/

def antispam_cooldown_sec : ℚ := 5

def base_message_xp : ℚ := 2

def bonus_xp_min : ℕ := 1

def bonus_xp_max : ℕ := 5

def voice_xp_per_minute : ℚ := 3/10

def daily_bonus_multiplier : ℚ := 3/2

def streak_bonus_days : ℕ := 7

def streak_bonus_multiplier : ℚ := 2

def voice_weight_factor : ℚ := 10

def base_xp_requirement : ℚ := 15

def xp_multiplier : ℚ := 7/5

def prestige_threshold : ℕ := 50

/-! ### Python dict model: association lists in insertion order -/

abbrev PyDict (κ α : Type) : Type := List (κ × α)

def dictGet? {κ α : Type} [DecidableEq κ] : PyDict κ α → κ → Option α
  | [], _ => none
  | (k, v) :: rest, key => if key = k then some v else dictGet? rest key

def dictGetD {κ α : Type} [DecidableEq κ] (d : PyDict κ α) (key : κ) (v₀ : α) : α :=
  (dictGet? d key).getD v₀

def dictContains {κ α : Type} [DecidableEq κ] (d : PyDict κ α) (key : κ) : Bool :=
  (dictGet? d key).isSome

def dictSet {κ α : Type} [DecidableEq κ] : PyDict κ α → κ → α → PyDict κ α
  | [], key, v => [(key, v)]
  | (k, w) :: rest, key, v =>
      if key = k then (k, v) :: rest else (k, w) :: dictSet rest key v

def dictErase {κ α : Type} [DecidableEq κ] : PyDict κ α → κ → PyDict κ α
  | [], _ => []
  | (k, w) :: rest, key => if key = k then rest else (k, w) :: dictErase rest key

/-- Python `set.add` on the duplicate-free-list model of a set. -/
def setAdd {α : Type} [DecidableEq α] (l : List α) (x : α) : List α :=
  if x ∈ l then l else l ++ [x]

/-! ### Engine state (`BotState` in `potbot.py`, engine-relevant fields) -/

/-- The mutable `daily_stats` singleton. -/
structure DailyStats where
  date : String
  messages : ℕ
  xp_gained : ℚ
  voice_time : ℚ
  active_users : List ℕ
  level_ups : ℕ
  prestiges : ℕ
  new_members : ℕ
deriving DecidableEq

/-- A frozen `daily_history` entry (with `active_users` reduced to a count). -/
structure DayRec where
  messages : ℕ
  xp_gained : ℚ
  voice_time : ℚ
  active_users : ℕ
  level_ups : ℕ
  prestiges : ℕ
  new_members : ℕ
deriving DecidableEq

structure BotState where
  events_message : String
  user_xp : PyDict ℕ ℚ
  user_level : PyDict ℕ ℕ
  user_prestige : PyDict ℕ ℕ
  user_last_message : PyDict ℕ ℚ
  user_daily_streak : PyDict ℕ ℕ
  user_last_daily : PyDict ℕ String
  user_achievements : PyDict ℕ (List String)
  voice_start_times : PyDict ℕ ℚ
  user_message_count : PyDict ℕ ℕ
  user_voice_time : PyDict ℕ ℚ
  total_server_messages : ℕ
  daily_stats : DailyStats
  daily_history : PyDict String DayRec
deriving DecidableEq

def emptyDailyStats : DailyStats :=
  { date := "", messages := 0, xp_gained := 0, voice_time := 0,
    active_users := [], level_ups := 0, prestiges := 0, new_members := 0 }

def emptyBotState : BotState :=
  { events_message := "No upcoming events.", user_xp := [], user_level := [],
    user_prestige := [], user_last_message := [], user_daily_streak := [],
    user_last_daily := [], user_achievements := [], voice_start_times := [],
    user_message_count := [], user_voice_time := [], total_server_messages := 0,
    daily_stats := emptyDailyStats, daily_history := [] }

/-! ### Progression calculator -/

/-- `calculate_level_requirement` in `potbot.py`: per-level floored
exponential requirement. -/
def calculate_level_requirement (level : ℕ) : ℚ :=
  if level = 0 then 0
  else ((⌊base_xp_requirement * xp_multiplier ^ (level - 1)⌋ : ℤ) : ℚ)

/-- The closed-form geometric cumulative requirement
`base_req * ((multiplier ** mid - 1) / (multiplier - 1))` computed inside the
binary-search loop of `calculate_level_from_xp`. -/
def geomTotalXp (m : ℕ) : ℚ :=
  base_xp_requirement * ((xp_multiplier ^ m - 1) / (xp_multiplier - 1))

/-- The `while left < right` binary-search loop of `calculate_level_from_xp`. -/
def levelSearch (xp : ℚ) (left right : ℕ) : ℕ :=
  if h : left < right then
    let mid := (left + right + 1) / 2
    if geomTotalXp mid ≤ xp then levelSearch xp mid right
    else levelSearch xp left (mid - 1)
  else left
termination_by right - left
decreasing_by
  all_goals simp only [mid] at *
  all_goals omega

/-- `calculate_level_from_xp` in `potbot.py`. -/
def calculate_level_from_xp (xp : ℚ) : ℕ :=
  levelSearch xp 0 prestige_threshold

/-- `get_total_xp_for_level` in `potbot.py`: sum of the per-level
requirements for `i` in `1..level`. -/
def get_total_xp_for_level (level : ℕ) : ℚ :=
  ((List.range level).map (fun i => calculate_level_requirement (i + 1))).sum

/-- `get_progress_in_level` in `potbot.py`. -/
def get_progress_in_level (xp : ℚ) (level : ℕ) : ℚ × ℚ :=
  (xp - get_total_xp_for_level level, calculate_level_requirement (level + 1))

/-! ### Daily stats aggregator -/

/-- Freezing the day's stats into a history record
(`active_users` reduced to its count), as written by `reset_daily_stats`. -/
def freezeDay (ds : DailyStats) : DayRec :=
  { messages := ds.messages, xp_gained := ds.xp_gained, voice_time := ds.voice_time,
    active_users := ds.active_users.length, level_ups := ds.level_ups,
    prestiges := ds.prestiges, new_members := ds.new_members }

/-- `reset_daily_stats` in `potbot.py`: archive the previous day (if any)
and start a fresh day. -/
def reset_daily_stats (today : String) (s : BotState) : BotState :=
  let s1 :=
    if s.daily_stats.date ≠ "" ∧ s.daily_stats.date ≠ today then
      { s with daily_history := dictSet s.daily_history s.daily_stats.date (freezeDay s.daily_stats) }
    else s
  { s1 with daily_stats := { emptyDailyStats with date := today } }

/-- `update_daily_stats` in `potbot.py`.  `user_id` is `none` for non-user
events; Python's falsy test `if user_id:` also skips user id `0`. -/
def update_daily_stats (today : String) (s : BotState) (user_id : Option ℕ)
    (messages : ℕ) (xp : ℚ) (voice_time : ℚ)
    (level_up : Bool) (prestige_f : Bool) (new_member : Bool) : BotState :=
  let s1 := if s.daily_stats.date ≠ today then reset_daily_stats today s else s
  { s1 with daily_stats :=
    { s1.daily_stats with
      messages := s1.daily_stats.messages + messages,
      xp_gained := s1.daily_stats.xp_gained + xp,
      voice_time := s1.daily_stats.voice_time + voice_time,
      active_users :=
        match user_id with
        | some u => if u = 0 then s1.daily_stats.active_users
                    else setAdd s1.daily_stats.active_users u
        | none => s1.daily_stats.active_users,
      level_ups := s1.daily_stats.level_ups + (if level_up then 1 else 0),
      prestiges := s1.daily_stats.prestiges + (if prestige_f then 1 else 0),
      new_members := s1.daily_stats.new_members + (if new_member then 1 else 0) } }

/-- `get_stats_comparison` in `potbot.py`. -/
def get_stats_comparison (today yesterday : String) (s : BotState) :
    Option DailyStats × Option DayRec :=
  (if s.daily_stats.date = today then some s.daily_stats else none,
   dictGet? s.daily_history yesterday)

/-! ### Achievements -/

/-- `award_achievement` in `potbot.py`. -/
def award_achievement (s : BotState) (user_id : ℕ) (achievement_id : String) : BotState :=
  let cur := dictGetD s.user_achievements user_id []
  { s with user_achievements := dictSet s.user_achievements user_id (setAdd cur achievement_id) }

/-- `check_achievements` in `potbot.py`.  The membership tests all read the
achievement set as it was on entry, exactly as the Python code does. -/
def check_achievements (s : BotState) (user_id : ℕ) (xp : ℚ) (level : ℕ) : BotState :=
  let achievements := dictGetD s.user_achievements user_id []
  let s1 := if 100 ≤ xp ∧ "100_xp" ∉ achievements then
      award_achievement s user_id "100_xp" else s
  let s2 := if 1000 ≤ xp ∧ "1000_xp" ∉ achievements then
      award_achievement s1 user_id "1000_xp" else s1
  let s3 := if 10 ≤ level ∧ "level_10" ∉ achievements then
      award_achievement s2 user_id "level_10" else s2
  let s4 := if 25 ≤ level ∧ "level_25" ∉ achievements then
      award_achievement s3 user_id "level_25" else s3
  let streak := dictGetD s4.user_daily_streak user_id 0
  let s5 := if 10 ≤ streak ∧ "10_day_streak" ∉ achievements then
      award_achievement s4 user_id "10_day_streak" else s4
  let voice_time := dictGetD s5.user_voice_time user_id 0
  if 60 ≤ voice_time ∧ "voice_hour" ∉ achievements then
    award_achievement s5 user_id "voice_hour" else s5

/-! ### XP award pipeline -/

structure AddXpResult where
  leveled_up : Bool
  new_level : ℕ
  prestiged : Bool
deriving DecidableEq

/-- `add_xp` in `potbot.py`: the core XP/level/prestige transition.
`today` is the current calendar date used by the nested
`update_daily_stats` calls. -/
def add_xp (today : String) (s : BotState) (user_id : ℕ) (amount : ℚ) :
    AddXpResult × BotState :=
  let old_xp := dictGetD s.user_xp user_id 0
  let new_xp := old_xp + amount
  let s1 := { s with user_xp := dictSet s.user_xp user_id new_xp }
  let old_level := dictGetD s1.user_level user_id 0
  let new_level := calculate_level_from_xp new_xp
  let s2 := { s1 with user_level := dictSet s1.user_level user_id new_level }
  let s3 := check_achievements s2 user_id new_xp new_level
  if prestige_threshold ≤ new_level ∧ old_level < prestige_threshold then
    let s4 := { s3 with
      user_prestige := dictSet s3.user_prestige user_id (dictGetD s3.user_prestige user_id 0 + 1),
      user_xp := dictSet s3.user_xp user_id 0,
      user_level := dictSet s3.user_level user_id 0 }
    let s5 := award_achievement s4 user_id "first_prestige"
    let s6 := update_daily_stats today s5 (some user_id) 0 0 0 false true false
    ({ leveled_up := false, new_level := 0, prestiged := true }, s6)
  else
    let leveled_up := old_level < new_level
    let s4 := if leveled_up then
        update_daily_stats today s3 (some user_id) 0 0 0 true false false
      else s3
    ({ leveled_up := leveled_up, new_level := new_level, prestiged := false }, s4)

/-- `calculate_message_xp` in `potbot.py`.  The date pair
(`today`, `yesterday`) and the bonus roll (`bonusHit`, `bonusAmt`, where
`bonusAmt` models `random.randint(bonus_xp_min, bonus_xp_max)`) are passed
explicitly. -/
def calculate_message_xp (today yesterday : String) (bonusHit : Bool) (bonusAmt : ℕ)
    (s : BotState) (user_id : ℕ) : ℚ × BotState :=
  let base_xp := base_message_xp
  let last_daily := dictGetD s.user_last_daily user_id ""
  let p : ℚ × BotState :=
    if last_daily ≠ today then
      let s1 := { s with user_last_daily := dictSet s.user_last_daily user_id today }
      let s2 :=
        if last_daily = yesterday then
          { s1 with user_daily_streak :=
              dictSet s1.user_daily_streak user_id (dictGetD s1.user_daily_streak user_id 0 + 1) }
        else
          { s1 with user_daily_streak := dictSet s1.user_daily_streak user_id 1 }
      (daily_bonus_multiplier, s2)
    else (1, s)
  let s' := p.2
  let streak := dictGetD s'.user_daily_streak user_id 0
  let multiplier := if streak_bonus_days ≤ streak then p.1 * streak_bonus_multiplier else p.1
  let bonus : ℚ := if bonusHit then (bonusAmt : ℚ) else 0
  (base_xp * multiplier + bonus, s')

/-! ### Leaderboard -/

/-- `get_prestige_bonus_multiplier` in `potbot.py`. -/
def get_prestige_bonus_multiplier : ℚ :=
  get_total_xp_for_level prestige_threshold

/-- `get_leaderboard_score` in `potbot.py`. -/
def get_leaderboard_score (s : BotState) (user_id : ℕ) : ℚ :=
  let xp := dictGetD s.user_xp user_id 0
  let voice_time := dictGetD s.user_voice_time user_id 0
  let p := dictGetD s.user_prestige user_id 0
  let prestige_bonus := if 0 < p then (p : ℚ) * get_prestige_bonus_multiplier else 0
  xp + voice_time * voice_weight_factor + prestige_bonus

/-- `get_sorted_leaderboard` in `potbot.py`: all users (in `user_xp`
insertion order) with positive score, stably sorted by score descending. -/
def get_sorted_leaderboard (s : BotState) : List (ℕ × ℚ) :=
  let scores := (s.user_xp.map (fun kv => (kv.1, get_leaderboard_score s kv.1))).filter
    (fun x => 0 < x.2)
  scores.insertionSort (fun a b => b.2 ≤ a.2)

/-- The `for i, (uid, score) in enumerate(leaderboard, 1)` loop of
`get_user_rank`: first matching 1-based index, else `len + 1`. -/
def rankLoop : List (ℕ × ℚ) → ℕ → ℕ → ℕ
  | [], _, i => i
  | (uid, _) :: rest, target, i => if uid = target then i else rankLoop rest target (i + 1)

/-- `get_user_rank` in `potbot.py`. -/
def get_user_rank (s : BotState) (user_id : ℕ) : ℕ :=
  if s.user_xp.isEmpty then 1
  else rankLoop (get_sorted_leaderboard s) user_id 1

/-! ### Persistence (`save_data` / `load_data`) -/

/-- The JSON snapshot schema.  User-map keys are string encoded; a decimal
string is modelled as the digit list `Nat.digits 10 k`.  Set-valued fields
appear as plain lists. -/
structure Snapshot where
  user_xp : PyDict (List ℕ) ℚ
  user_level : PyDict (List ℕ) ℕ
  user_prestige : PyDict (List ℕ) ℕ
  user_daily_streak : PyDict (List ℕ) ℕ
  user_last_daily : PyDict (List ℕ) String
  user_message_count : PyDict (List ℕ) ℕ
  user_voice_time : PyDict (List ℕ) ℚ
  user_achievements : PyDict (List ℕ) (List String)
  events_message : String
  total_server_messages : ℕ
  daily_stats : DailyStats
  daily_history : PyDict String DayRec
deriving DecidableEq

/-- Python `str(k)` on a user id, as its decimal digit string. -/
def strKey (k : ℕ) : List ℕ := Nat.digits 10 k

/-- Python `int(k)` on a decimal key string. -/
def intKey (l : List ℕ) : ℕ := Nat.ofDigits 10 l

/-- `save_data` in `potbot.py` (the serialized snapshot it writes):
user-map keys become strings, set-valued fields become lists. -/
def save_data (s : BotState) : Snapshot :=
  { user_xp := s.user_xp.map (fun kv => (strKey kv.1, kv.2)),
    user_level := s.user_level.map (fun kv => (strKey kv.1, kv.2)),
    user_prestige := s.user_prestige.map (fun kv => (strKey kv.1, kv.2)),
    user_daily_streak := s.user_daily_streak.map (fun kv => (strKey kv.1, kv.2)),
    user_last_daily := s.user_last_daily.map (fun kv => (strKey kv.1, kv.2)),
    user_message_count := s.user_message_count.map (fun kv => (strKey kv.1, kv.2)),
    user_voice_time := s.user_voice_time.map (fun kv => (strKey kv.1, kv.2)),
    user_achievements := s.user_achievements.map (fun kv => (strKey kv.1, kv.2)),
    events_message := s.events_message,
    total_server_messages := s.total_server_messages,
    daily_stats := s.daily_stats,
    daily_history := s.daily_history }

/-- `load_data` in `potbot.py` (the branch that found a snapshot),
populating a fresh state: keys are parsed back to integers, list-encoded
sets are converted back to sets (`set(v)` removes duplicates, modelled by
`List.dedup`). -/
def load_data (snap : Snapshot) : BotState :=
  { emptyBotState with
    user_xp := snap.user_xp.map (fun kv => (intKey kv.1, kv.2)),
    user_level := snap.user_level.map (fun kv => (intKey kv.1, kv.2)),
    user_prestige := snap.user_prestige.map (fun kv => (intKey kv.1, kv.2)),
    user_daily_streak := snap.user_daily_streak.map (fun kv => (intKey kv.1, kv.2)),
    user_last_daily := snap.user_last_daily.map (fun kv => (intKey kv.1, kv.2)),
    user_message_count := snap.user_message_count.map (fun kv => (intKey kv.1, kv.2)),
    user_voice_time := snap.user_voice_time.map (fun kv => (intKey kv.1, kv.2)),
    user_achievements := snap.user_achievements.map (fun kv => (intKey kv.1, kv.2.dedup)),
    events_message := snap.events_message,
    total_server_messages := snap.total_server_messages,
    daily_stats := { snap.daily_stats with active_users := snap.daily_stats.active_users.dedup },
    daily_history := snap.daily_history }

/-! ### Event handlers (engine-relevant paths) -/

/-- The guild-message path of `on_message` in `potbot.py` (lines 1251-1312):
total-message counter, first-message achievement, anti-spam cooldown gate,
message XP award, message count, cooldown timestamp, daily stats, and the
top-3 achievement check. -/
def on_guild_message (now : ℚ) (today yesterday : String) (bonusHit : Bool)
    (bonusAmt : ℕ) (s : BotState) (user_id : ℕ) : BotState :=
  let last_message_time := dictGetD s.user_last_message user_id 0
  let s1 := { s with total_server_messages := s.total_server_messages + 1 }
  let s2 := if dictContains s1.user_message_count user_id then s1
    else award_achievement s1 user_id "first_message"
  if antispam_cooldown_sec ≤ now - last_message_time then
    let q := calculate_message_xp today yesterday bonusHit bonusAmt s2 user_id
    let xp_gained := q.1
    let r := add_xp today q.2 user_id xp_gained
    let s3 := r.2
    let s4 := { s3 with
      user_message_count := dictSet s3.user_message_count user_id
        (dictGetD s3.user_message_count user_id 0 + 1),
      user_last_message := dictSet s3.user_last_message user_id now }
    let s5 := update_daily_stats today s4 (some user_id) 1 xp_gained 0 false false false
    let rank := get_user_rank s5 user_id
    if rank ≤ 3 then
      if "top_3" ∉ dictGetD s5.user_achievements user_id [] then
        award_achievement s5 user_id "top_3"
      else s5
    else s5
  else s2

/-- The voice-leave path of `on_voice_state_update` in `potbot.py`
(lines 1326-1340): close the session, and if it lasted at least one
minute, convert minutes to XP and record voice time. -/
def on_voice_leave (today : String) (now : ℚ) (s : BotState) (user_id : ℕ) : BotState :=
  match dictGet? s.voice_start_times user_id with
  | none => s
  | some start_time =>
    let s1 := { s with voice_start_times := dictErase s.voice_start_times user_id }
    let duration_minutes := (now - start_time) / 60
    if 1 ≤ duration_minutes then
      let xp_gained := duration_minutes * voice_xp_per_minute
      let r := add_xp today s1 user_id xp_gained
      let s2 := r.2
      let s3 := { s2 with
        user_voice_time := dictSet s2.user_voice_time user_id
          (dictGetD s2.user_voice_time user_id 0 + duration_minutes) }
      update_daily_stats today s3 (some user_id) 0 xp_gained duration_minutes false false false
    else s1

/-! ### Dictionary lemmas -/

theorem dictGet?_set_self {κ α : Type} [DecidableEq κ] (d : PyDict κ α) (k : κ) (v : α) :
    dictGet? (dictSet d k v) k = some v := by
  induction d with
  | nil => simp [dictSet, dictGet?]
  | cons hd tl ih =>
      obtain ⟨k', v'⟩ := hd
      by_cases h : k = k' <;> simp [dictSet, dictGet?, h, ih]

theorem dictGet?_set_ne {κ α : Type} [DecidableEq κ] (d : PyDict κ α) (k k' : κ) (v : α)
    (h : k' ≠ k) : dictGet? (dictSet d k v) k' = dictGet? d k' := by
  induction d with
  | nil => simp [dictSet, dictGet?, h]
  | cons hd tl ih =>
      obtain ⟨k₀, v₀⟩ := hd
      by_cases h1 : k = k₀
      · subst h1; simp [dictSet, dictGet?, h]
      · by_cases h2 : k' = k₀ <;> simp [dictSet, dictGet?, h1, h2, ih]

theorem dictGetD_set_self {κ α : Type} [DecidableEq κ] (d : PyDict κ α) (k : κ) (v w : α) :
    dictGetD (dictSet d k v) k w = v := by
  simp [dictGetD, dictGet?_set_self]

theorem dictGet?_eq_none_of_not_mem_keys {κ α : Type} [DecidableEq κ]
    (d : PyDict κ α) (k : κ) (h : k ∉ d.map Prod.fst) : dictGet? d k = none := by
  induction d with
  | nil => simp [dictGet?]
  | cons hd tl ih =>
      obtain ⟨k₀, v₀⟩ := hd
      simp only [List.map_cons, List.mem_cons] at h
      push_neg at h
      simp [dictGet?, h.1, ih h.2]

/-! ### Frame lemmas: which functions leave which state fields untouched -/

@[simp] theorem award_user_xp (s : BotState) (u : ℕ) (a : String) :
    (award_achievement s u a).user_xp = s.user_xp := rfl

@[simp] theorem award_user_level (s : BotState) (u : ℕ) (a : String) :
    (award_achievement s u a).user_level = s.user_level := rfl

@[simp] theorem award_user_prestige (s : BotState) (u : ℕ) (a : String) :
    (award_achievement s u a).user_prestige = s.user_prestige := rfl

@[simp] theorem award_user_last_message (s : BotState) (u : ℕ) (a : String) :
    (award_achievement s u a).user_last_message = s.user_last_message := rfl

@[simp] theorem award_user_daily_streak (s : BotState) (u : ℕ) (a : String) :
    (award_achievement s u a).user_daily_streak = s.user_daily_streak := rfl

@[simp] theorem award_user_last_daily (s : BotState) (u : ℕ) (a : String) :
    (award_achievement s u a).user_last_daily = s.user_last_daily := rfl

@[simp] theorem award_voice_start_times (s : BotState) (u : ℕ) (a : String) :
    (award_achievement s u a).voice_start_times = s.voice_start_times := rfl

@[simp] theorem award_user_message_count (s : BotState) (u : ℕ) (a : String) :
    (award_achievement s u a).user_message_count = s.user_message_count := rfl

@[simp] theorem award_user_voice_time (s : BotState) (u : ℕ) (a : String) :
    (award_achievement s u a).user_voice_time = s.user_voice_time := rfl

@[simp] theorem award_total_server_messages (s : BotState) (u : ℕ) (a : String) :
    (award_achievement s u a).total_server_messages = s.total_server_messages := rfl

@[simp] theorem award_daily_stats (s : BotState) (u : ℕ) (a : String) :
    (award_achievement s u a).daily_stats = s.daily_stats := rfl

@[simp] theorem award_daily_history (s : BotState) (u : ℕ) (a : String) :
    (award_achievement s u a).daily_history = s.daily_history := rfl

@[simp] theorem award_events_message (s : BotState) (u : ℕ) (a : String) :
    (award_achievement s u a).events_message = s.events_message := rfl

@[simp] theorem check_achievements_user_xp (s : BotState) (u : ℕ) (xp : ℚ) (lvl : ℕ) :
    (check_achievements s u xp lvl).user_xp = s.user_xp := by
  simp only [check_achievements, apply_ite BotState.user_xp, award_user_xp,
    award_user_daily_streak, award_user_voice_time, ite_self]

@[simp] theorem check_achievements_user_level (s : BotState) (u : ℕ) (xp : ℚ) (lvl : ℕ) :
    (check_achievements s u xp lvl).user_level = s.user_level := by
  simp only [check_achievements, apply_ite BotState.user_level, award_user_level,
    award_user_daily_streak, award_user_voice_time, ite_self]

@[simp] theorem check_achievements_user_prestige (s : BotState) (u : ℕ) (xp : ℚ) (lvl : ℕ) :
    (check_achievements s u xp lvl).user_prestige = s.user_prestige := by
  simp only [check_achievements, apply_ite BotState.user_prestige, award_user_prestige,
    award_user_daily_streak, award_user_voice_time, ite_self]

@[simp] theorem check_achievements_user_last_message (s : BotState) (u : ℕ) (xp : ℚ) (lvl : ℕ) :
    (check_achievements s u xp lvl).user_last_message = s.user_last_message := by
  simp only [check_achievements, apply_ite BotState.user_last_message, award_user_last_message,
    award_user_daily_streak, award_user_voice_time, ite_self]

@[simp] theorem check_achievements_user_daily_streak (s : BotState) (u : ℕ) (xp : ℚ) (lvl : ℕ) :
    (check_achievements s u xp lvl).user_daily_streak = s.user_daily_streak := by
  simp only [check_achievements, apply_ite BotState.user_daily_streak,
    award_user_daily_streak, award_user_voice_time, ite_self]

@[simp] theorem check_achievements_user_last_daily (s : BotState) (u : ℕ) (xp : ℚ) (lvl : ℕ) :
    (check_achievements s u xp lvl).user_last_daily = s.user_last_daily := by
  simp only [check_achievements, apply_ite BotState.user_last_daily, award_user_last_daily,
    award_user_daily_streak, award_user_voice_time, ite_self]

@[simp] theorem check_achievements_voice_start_times (s : BotState) (u : ℕ) (xp : ℚ) (lvl : ℕ) :
    (check_achievements s u xp lvl).voice_start_times = s.voice_start_times := by
  simp only [check_achievements, apply_ite BotState.voice_start_times, award_voice_start_times,
    award_user_daily_streak, award_user_voice_time, ite_self]

@[simp] theorem check_achievements_user_message_count (s : BotState) (u : ℕ) (xp : ℚ) (lvl : ℕ) :
    (check_achievements s u xp lvl).user_message_count = s.user_message_count := by
  simp only [check_achievements, apply_ite BotState.user_message_count, award_user_message_count,
    award_user_daily_streak, award_user_voice_time, ite_self]

@[simp] theorem check_achievements_user_voice_time (s : BotState) (u : ℕ) (xp : ℚ) (lvl : ℕ) :
    (check_achievements s u xp lvl).user_voice_time = s.user_voice_time := by
  simp only [check_achievements, apply_ite BotState.user_voice_time,
    award_user_daily_streak, award_user_voice_time, ite_self]

@[simp] theorem check_achievements_total_server_messages (s : BotState) (u : ℕ) (xp : ℚ) (lvl : ℕ) :
    (check_achievements s u xp lvl).total_server_messages = s.total_server_messages := by
  simp only [check_achievements, apply_ite BotState.total_server_messages,
    award_total_server_messages, award_user_daily_streak, award_user_voice_time, ite_self]

@[simp] theorem check_achievements_daily_stats (s : BotState) (u : ℕ) (xp : ℚ) (lvl : ℕ) :
    (check_achievements s u xp lvl).daily_stats = s.daily_stats := by
  simp only [check_achievements, apply_ite BotState.daily_stats, award_daily_stats,
    award_user_daily_streak, award_user_voice_time, ite_self]

@[simp] theorem check_achievements_daily_history (s : BotState) (u : ℕ) (xp : ℚ) (lvl : ℕ) :
    (check_achievements s u xp lvl).daily_history = s.daily_history := by
  simp only [check_achievements, apply_ite BotState.daily_history, award_daily_history,
    award_user_daily_streak, award_user_voice_time, ite_self]

@[simp] theorem check_achievements_events_message (s : BotState) (u : ℕ) (xp : ℚ) (lvl : ℕ) :
    (check_achievements s u xp lvl).events_message = s.events_message := by
  simp only [check_achievements, apply_ite BotState.events_message, award_events_message,
    award_user_daily_streak, award_user_voice_time, ite_self]

@[simp] theorem reset_daily_stats_user_xp (today : String) (s : BotState) :
    (reset_daily_stats today s).user_xp = s.user_xp := by
  simp only [reset_daily_stats, apply_ite BotState.user_xp, ite_self]

@[simp] theorem reset_daily_stats_user_level (today : String) (s : BotState) :
    (reset_daily_stats today s).user_level = s.user_level := by
  simp only [reset_daily_stats, apply_ite BotState.user_level, ite_self]

@[simp] theorem reset_daily_stats_user_prestige (today : String) (s : BotState) :
    (reset_daily_stats today s).user_prestige = s.user_prestige := by
  simp only [reset_daily_stats, apply_ite BotState.user_prestige, ite_self]

@[simp] theorem reset_daily_stats_user_last_message (today : String) (s : BotState) :
    (reset_daily_stats today s).user_last_message = s.user_last_message := by
  simp only [reset_daily_stats, apply_ite BotState.user_last_message, ite_self]

@[simp] theorem reset_daily_stats_user_daily_streak (today : String) (s : BotState) :
    (reset_daily_stats today s).user_daily_streak = s.user_daily_streak := by
  simp only [reset_daily_stats, apply_ite BotState.user_daily_streak, ite_self]

@[simp] theorem reset_daily_stats_user_last_daily (today : String) (s : BotState) :
    (reset_daily_stats today s).user_last_daily = s.user_last_daily := by
  simp only [reset_daily_stats, apply_ite BotState.user_last_daily, ite_self]

@[simp] theorem reset_daily_stats_user_achievements (today : String) (s : BotState) :
    (reset_daily_stats today s).user_achievements = s.user_achievements := by
  simp only [reset_daily_stats, apply_ite BotState.user_achievements, ite_self]

@[simp] theorem reset_daily_stats_voice_start_times (today : String) (s : BotState) :
    (reset_daily_stats today s).voice_start_times = s.voice_start_times := by
  simp only [reset_daily_stats, apply_ite BotState.voice_start_times, ite_self]

@[simp] theorem reset_daily_stats_user_message_count (today : String) (s : BotState) :
    (reset_daily_stats today s).user_message_count = s.user_message_count := by
  simp only [reset_daily_stats, apply_ite BotState.user_message_count, ite_self]

@[simp] theorem reset_daily_stats_user_voice_time (today : String) (s : BotState) :
    (reset_daily_stats today s).user_voice_time = s.user_voice_time := by
  simp only [reset_daily_stats, apply_ite BotState.user_voice_time, ite_self]

@[simp] theorem reset_daily_stats_total_server_messages (today : String) (s : BotState) :
    (reset_daily_stats today s).total_server_messages = s.total_server_messages := by
  simp only [reset_daily_stats, apply_ite BotState.total_server_messages, ite_self]

@[simp] theorem reset_daily_stats_events_message (today : String) (s : BotState) :
    (reset_daily_stats today s).events_message = s.events_message := by
  simp only [reset_daily_stats, apply_ite BotState.events_message, ite_self]

@[simp] theorem update_daily_stats_user_xp (today : String) (s : BotState) (uid : Option ℕ)
    (m : ℕ) (xp vt : ℚ) (lu pf nm : Bool) :
    (update_daily_stats today s uid m xp vt lu pf nm).user_xp = s.user_xp := by
  simp [update_daily_stats, apply_ite BotState.user_xp]

@[simp] theorem update_daily_stats_user_level (today : String) (s : BotState) (uid : Option ℕ)
    (m : ℕ) (xp vt : ℚ) (lu pf nm : Bool) :
    (update_daily_stats today s uid m xp vt lu pf nm).user_level = s.user_level := by
  simp [update_daily_stats, apply_ite BotState.user_level]

@[simp] theorem update_daily_stats_user_prestige (today : String) (s : BotState) (uid : Option ℕ)
    (m : ℕ) (xp vt : ℚ) (lu pf nm : Bool) :
    (update_daily_stats today s uid m xp vt lu pf nm).user_prestige = s.user_prestige := by
  simp [update_daily_stats, apply_ite BotState.user_prestige]

@[simp] theorem update_daily_stats_user_last_message (today : String) (s : BotState)
    (uid : Option ℕ) (m : ℕ) (xp vt : ℚ) (lu pf nm : Bool) :
    (update_daily_stats today s uid m xp vt lu pf nm).user_last_message = s.user_last_message := by
  simp [update_daily_stats, apply_ite BotState.user_last_message]

@[simp] theorem update_daily_stats_user_daily_streak (today : String) (s : BotState)
    (uid : Option ℕ) (m : ℕ) (xp vt : ℚ) (lu pf nm : Bool) :
    (update_daily_stats today s uid m xp vt lu pf nm).user_daily_streak = s.user_daily_streak := by
  simp [update_daily_stats, apply_ite BotState.user_daily_streak]

@[simp] theorem update_daily_stats_user_last_daily (today : String) (s : BotState)
    (uid : Option ℕ) (m : ℕ) (xp vt : ℚ) (lu pf nm : Bool) :
    (update_daily_stats today s uid m xp vt lu pf nm).user_last_daily = s.user_last_daily := by
  simp [update_daily_stats, apply_ite BotState.user_last_daily]

@[simp] theorem update_daily_stats_user_achievements (today : String) (s : BotState)
    (uid : Option ℕ) (m : ℕ) (xp vt : ℚ) (lu pf nm : Bool) :
    (update_daily_stats today s uid m xp vt lu pf nm).user_achievements = s.user_achievements := by
  simp [update_daily_stats, apply_ite BotState.user_achievements]

@[simp] theorem update_daily_stats_voice_start_times (today : String) (s : BotState)
    (uid : Option ℕ) (m : ℕ) (xp vt : ℚ) (lu pf nm : Bool) :
    (update_daily_stats today s uid m xp vt lu pf nm).voice_start_times = s.voice_start_times := by
  simp [update_daily_stats, apply_ite BotState.voice_start_times]

@[simp] theorem update_daily_stats_user_message_count (today : String) (s : BotState)
    (uid : Option ℕ) (m : ℕ) (xp vt : ℚ) (lu pf nm : Bool) :
    (update_daily_stats today s uid m xp vt lu pf nm).user_message_count = s.user_message_count := by
  simp [update_daily_stats, apply_ite BotState.user_message_count]

@[simp] theorem update_daily_stats_user_voice_time (today : String) (s : BotState)
    (uid : Option ℕ) (m : ℕ) (xp vt : ℚ) (lu pf nm : Bool) :
    (update_daily_stats today s uid m xp vt lu pf nm).user_voice_time = s.user_voice_time := by
  simp [update_daily_stats, apply_ite BotState.user_voice_time]

@[simp] theorem update_daily_stats_total_server_messages (today : String) (s : BotState)
    (uid : Option ℕ) (m : ℕ) (xp vt : ℚ) (lu pf nm : Bool) :
    (update_daily_stats today s uid m xp vt lu pf nm).total_server_messages =
      s.total_server_messages := by
  simp [update_daily_stats, apply_ite BotState.total_server_messages]

@[simp] theorem update_daily_stats_events_message (today : String) (s : BotState)
    (uid : Option ℕ) (m : ℕ) (xp vt : ℚ) (lu pf nm : Bool) :
    (update_daily_stats today s uid m xp vt lu pf nm).events_message = s.events_message := by
  simp [update_daily_stats, apply_ite BotState.events_message]

@[simp] theorem add_xp_user_last_message (today : String) (s : BotState) (u : ℕ) (a : ℚ) :
    (add_xp today s u a).2.user_last_message = s.user_last_message := by
  simp only [add_xp]
  split <;> simp [apply_ite BotState.user_last_message]

@[simp] theorem add_xp_user_daily_streak (today : String) (s : BotState) (u : ℕ) (a : ℚ) :
    (add_xp today s u a).2.user_daily_streak = s.user_daily_streak := by
  simp only [add_xp]
  split <;> simp [apply_ite BotState.user_daily_streak]

@[simp] theorem add_xp_user_last_daily (today : String) (s : BotState) (u : ℕ) (a : ℚ) :
    (add_xp today s u a).2.user_last_daily = s.user_last_daily := by
  simp only [add_xp]
  split <;> simp [apply_ite BotState.user_last_daily]

@[simp] theorem add_xp_user_message_count (today : String) (s : BotState) (u : ℕ) (a : ℚ) :
    (add_xp today s u a).2.user_message_count = s.user_message_count := by
  simp only [add_xp]
  split <;> simp [apply_ite BotState.user_message_count]

@[simp] theorem add_xp_user_voice_time (today : String) (s : BotState) (u : ℕ) (a : ℚ) :
    (add_xp today s u a).2.user_voice_time = s.user_voice_time := by
  simp only [add_xp]
  split <;> simp [apply_ite BotState.user_voice_time]

@[simp] theorem add_xp_voice_start_times (today : String) (s : BotState) (u : ℕ) (a : ℚ) :
    (add_xp today s u a).2.voice_start_times = s.voice_start_times := by
  simp only [add_xp]
  split <;> simp [apply_ite BotState.voice_start_times]

@[simp] theorem add_xp_total_server_messages (today : String) (s : BotState) (u : ℕ) (a : ℚ) :
    (add_xp today s u a).2.total_server_messages = s.total_server_messages := by
  simp only [add_xp]
  split <;> simp [apply_ite BotState.total_server_messages]

@[simp] theorem add_xp_events_message (today : String) (s : BotState) (u : ℕ) (a : ℚ) :
    (add_xp today s u a).2.events_message = s.events_message := by
  simp only [add_xp]
  split <;> simp [apply_ite BotState.events_message]

/-! ### Binary-search and requirement-curve lemmas -/

theorem levelSearch_step (xp : ℚ) (l r : ℕ) :
    levelSearch xp l r =
      if l < r then
        (if geomTotalXp ((l + r + 1) / 2) ≤ xp then levelSearch xp ((l + r + 1) / 2) r
         else levelSearch xp l ((l + r + 1) / 2 - 1))
      else l := by
  rw [levelSearch]
  by_cases h : l < r <;> simp [h]

theorem levelSearch_le_aux :
    ∀ n l r : ℕ, ∀ xp : ℚ, r - l ≤ n → l ≤ r → levelSearch xp l r ≤ r := by
  intro n
  induction n with
  | zero =>
      intro l r xp hn hlr
      rw [levelSearch_step]
      have h : ¬ l < r := by omega
      simp [h]
      omega
  | succ n ih =>
      intro l r xp hn hlr
      rw [levelSearch_step]
      by_cases hlt : l < r
      · rw [if_pos hlt]
        by_cases hc : geomTotalXp ((l + r + 1) / 2) ≤ xp
        · rw [if_pos hc]
          exact ih _ _ _ (by omega) (by omega)
        · rw [if_neg hc]
          exact le_trans (ih _ _ _ (by omega) (by omega)) (by omega)
      · simp [hlt]
        omega

theorem levelSearch_le (xp : ℚ) (l r : ℕ) (h : l ≤ r) : levelSearch xp l r ≤ r :=
  levelSearch_le_aux (r - l) l r xp le_rfl h

theorem levelSearch_lt_aux :
    ∀ n l r : ℕ, ∀ xp : ℚ, ∀ L : ℕ, r - l ≤ n → l < L →
      (∀ m : ℕ, L ≤ m → ¬ geomTotalXp m ≤ xp) → levelSearch xp l r < L := by
  intro n
  induction n with
  | zero =>
      intro l r xp L hn hlL hmono
      rw [levelSearch_step]
      by_cases h : l < r
      · omega
      · simp [h]; omega
  | succ n ih =>
      intro l r xp L hn hlL hmono
      rw [levelSearch_step]
      by_cases hlt : l < r
      · rw [if_pos hlt]
        by_cases hc : geomTotalXp ((l + r + 1) / 2) ≤ xp
        · rw [if_pos hc]
          have hmid : (l + r + 1) / 2 < L := by
            by_contra hge
            exact hmono _ (by omega) hc
          exact ih _ _ _ _ (by omega) hmid hmono
        · rw [if_neg hc]
          exact ih _ _ _ _ (by omega) hlL hmono
      · simp [hlt]; omega

theorem geomTotalXp_mono {m n : ℕ} (h : m ≤ n) : geomTotalXp m ≤ geomTotalXp n := by
  unfold geomTotalXp base_xp_requirement xp_multiplier
  have hpow : ((7:ℚ)/5) ^ m ≤ ((7:ℚ)/5) ^ n := pow_le_pow_right₀ (by norm_num) h
  have h25 : (0:ℚ) ≤ 7/5 - 1 := by norm_num
  have hdiv : (((7:ℚ)/5) ^ m - 1) / (7/5 - 1) ≤ (((7:ℚ)/5) ^ n - 1) / (7/5 - 1) := by
    apply div_le_div_of_nonneg_right _ h25
    linarith
  linarith

theorem geomTotalXp_succ (m : ℕ) :
    geomTotalXp (m + 1) = geomTotalXp m + base_xp_requirement * xp_multiplier ^ m := by
  unfold geomTotalXp base_xp_requirement xp_multiplier
  rw [pow_succ]
  field_simp
  ring

theorem geomTotalXp_zero : geomTotalXp 0 = 0 := by
  unfold geomTotalXp
  norm_num

theorem geomTotalXp_nonneg (m : ℕ) : 0 ≤ geomTotalXp m := by
  induction m with
  | zero => rw [geomTotalXp_zero]
  | succ m ih =>
      rw [geomTotalXp_succ]
      have : (0:ℚ) < base_xp_requirement * xp_multiplier ^ m := by
        unfold base_xp_requirement xp_multiplier
        positivity
      linarith

theorem get_total_xp_for_level_succ (L : ℕ) :
    get_total_xp_for_level (L + 1) =
      get_total_xp_for_level L + calculate_level_requirement (L + 1) := by
  simp [get_total_xp_for_level, List.range_succ]

theorem get_total_xp_for_level_le_geom (L : ℕ) :
    get_total_xp_for_level L ≤ geomTotalXp L := by
  induction L with
  | zero => simp [get_total_xp_for_level, geomTotalXp_zero]
  | succ L ih =>
      rw [get_total_xp_for_level_succ, geomTotalXp_succ]
      have hreq : calculate_level_requirement (L + 1) ≤ base_xp_requirement * xp_multiplier ^ L := by
        simp only [calculate_level_requirement, Nat.succ_ne_zero, if_false, Nat.add_sub_cancel]
        exact Int.floor_le _
      linarith

theorem calculate_level_from_xp_lt {L : ℕ} {xp : ℚ} (hL : 0 < L)
    (h : ¬ geomTotalXp L ≤ xp) : calculate_level_from_xp xp < L := by
  unfold calculate_level_from_xp prestige_threshold
  refine levelSearch_lt_aux 50 0 50 xp L (by norm_num) hL ?_
  intro m hm hc
  exact h (le_trans (geomTotalXp_mono hm) hc)

theorem geomTotalXp_one : geomTotalXp 1 = 15 := by
  unfold geomTotalXp base_xp_requirement xp_multiplier
  norm_num

theorem calculate_level_from_xp_of_lt_15 {xp : ℚ} (h : xp < 15) :
    calculate_level_from_xp xp = 0 := by
  have h1 : calculate_level_from_xp xp < 1 := by
    refine calculate_level_from_xp_lt (by norm_num) ?_
    rw [geomTotalXp_one]
    linarith
  omega

theorem calculate_level_from_xp_zero : calculate_level_from_xp 0 = 0 :=
  calculate_level_from_xp_of_lt_15 (by norm_num)

/-- C10: for every input XP (however large, and even negative),
`calculate_level_from_xp` returns a level in `[0, prestige_threshold]`;
in particular no XP amount ever maps to a level above 50. -/
theorem calculate_level_from_xp_in_range (xp : ℚ) :
    calculate_level_from_xp xp ≤ prestige_threshold ∧ calculate_level_from_xp xp ≤ 50 :=
  ⟨levelSearch_le xp 0 prestige_threshold (by norm_num),
   levelSearch_le xp 0 prestige_threshold (by norm_num)⟩

theorem get_total_xp_for_level_three : get_total_xp_for_level 3 = 65 := by
  simp only [get_total_xp_for_level, List.range_succ, List.range_zero,
    calculate_level_requirement, base_xp_requirement, xp_multiplier]
  norm_num

/-- C2 (counterexample): the claimed identity
`calculate_level_from_xp (get_total_xp_for_level level) = level` already
fails at `level = 3`: the floored per-level requirements sum to 65, while
the closed-form cumulative requirement used by the binary search is
65.4 > 65, so the result is 2, not 3. -/
theorem level_from_total_xp_fails_at_three :
    calculate_level_from_xp (get_total_xp_for_level 3) ≠ 3 := by
  have h65 : calculate_level_from_xp (65 : ℚ) = 2 := by
    unfold calculate_level_from_xp prestige_threshold
    rw [levelSearch_step]; norm_num [geomTotalXp, base_xp_requirement, xp_multiplier]
    rw [levelSearch_step]; norm_num [geomTotalXp, base_xp_requirement, xp_multiplier]
    rw [levelSearch_step]; norm_num [geomTotalXp, base_xp_requirement, xp_multiplier]
    rw [levelSearch_step]; norm_num [geomTotalXp, base_xp_requirement, xp_multiplier]
    rw [levelSearch_step]; norm_num [geomTotalXp, base_xp_requirement, xp_multiplier]
    rw [levelSearch_step]; norm_num [geomTotalXp, base_xp_requirement, xp_multiplier]
    rw [levelSearch_step]; norm_num
  rw [get_total_xp_for_level_three, h65]
  norm_num

/-- C2 (amended): the round trip only bounds from above  —
`calculate_level_from_xp (get_total_xp_for_level level) ≤ level` for every
level — and the strict boundary property holds for every `level ≥ 1`:
subtracting any `ε` with `0 < ε < 1` from the cumulative requirement drops
the computed level strictly below `level`. -/
theorem level_from_total_xp_bounds (L : ℕ) :
    calculate_level_from_xp (get_total_xp_for_level L) ≤ L
    ∧ (1 ≤ L → ∀ ε : ℚ, 0 < ε → ε < 1 →
        calculate_level_from_xp (get_total_xp_for_level L - ε) < L) := by
  constructor
  · have h : calculate_level_from_xp (get_total_xp_for_level L) < L + 1 := by
      refine calculate_level_from_xp_lt (by omega) ?_
      have h1 : get_total_xp_for_level L ≤ geomTotalXp L := get_total_xp_for_level_le_geom L
      have h2 : geomTotalXp L < geomTotalXp (L + 1) := by
        rw [geomTotalXp_succ]
        have : (0:ℚ) < base_xp_requirement * xp_multiplier ^ L := by
          unfold base_xp_requirement xp_multiplier
          positivity
        linarith
      linarith
    omega
  · intro hL ε hε _
    refine calculate_level_from_xp_lt (by omega) ?_
    have h1 : get_total_xp_for_level L ≤ geomTotalXp L := get_total_xp_for_level_le_geom L
    linarith

theorem level_from_total_xp_bounds_witness :
    calculate_level_from_xp (get_total_xp_for_level 3) ≤ 3
    ∧ (1:ℕ) ≤ 3 ∧ (0:ℚ) < 1/2 ∧ (1/2:ℚ) < 1
    ∧ calculate_level_from_xp (get_total_xp_for_level 3 - 1/2) < 3 :=
  ⟨(level_from_total_xp_bounds 3).1, by norm_num, by norm_num, by norm_num,
   (level_from_total_xp_bounds 3).2 (by norm_num) (1/2) (by norm_num) (by norm_num)⟩

/-- C1: after any call to `add_xp` (prestige branch included), the stored
level equals `calculate_level_from_xp` of the stored XP; the prestige
counter increments exactly when the prestige branch fires, in which case
XP and level are both reset to 0, and otherwise the stored XP is exactly
the old XP plus the amount (no reset). -/
theorem add_xp_level_invariant (today : String) (s : BotState) (u : ℕ) (amount : ℚ) :
    dictGetD (add_xp today s u amount).2.user_level u 0 =
      calculate_level_from_xp (dictGetD (add_xp today s u amount).2.user_xp u 0)
    ∧ ((add_xp today s u amount).1.prestiged = true
        ∧ dictGetD (add_xp today s u amount).2.user_prestige u 0 =
            dictGetD s.user_prestige u 0 + 1
        ∧ dictGetD (add_xp today s u amount).2.user_xp u 0 = 0
        ∧ dictGetD (add_xp today s u amount).2.user_level u 0 = 0
      ∨ (add_xp today s u amount).1.prestiged = false
        ∧ (add_xp today s u amount).2.user_prestige = s.user_prestige
        ∧ dictGetD (add_xp today s u amount).2.user_xp u 0 =
            dictGetD s.user_xp u 0 + amount) := by
  simp only [add_xp]
  by_cases hc : prestige_threshold ≤ calculate_level_from_xp (dictGetD s.user_xp u 0 + amount)
      ∧ dictGetD s.user_level u 0 < prestige_threshold
  · simp only [if_pos hc]
    refine ⟨?_, Or.inl ⟨trivial, ?_, ?_, ?_⟩⟩ <;>
      simp [dictGetD_set_self, calculate_level_from_xp_zero]
  · simp only [if_neg hc]
    refine ⟨?_, Or.inr ⟨trivial, ?_, ?_⟩⟩ <;>
      simp [dictGetD_set_self, apply_ite BotState.user_prestige, apply_ite BotState.user_xp,
        apply_ite BotState.user_level, ite_self]

theorem calculate_level_from_xp_two_billion : calculate_level_from_xp 2000000000 = 50 := by
  unfold calculate_level_from_xp prestige_threshold
  rw [levelSearch_step]; norm_num [geomTotalXp, base_xp_requirement, xp_multiplier]
  rw [levelSearch_step]; norm_num [geomTotalXp, base_xp_requirement, xp_multiplier]
  rw [levelSearch_step]; norm_num [geomTotalXp, base_xp_requirement, xp_multiplier]
  rw [levelSearch_step]; norm_num [geomTotalXp, base_xp_requirement, xp_multiplier]
  rw [levelSearch_step]; norm_num [geomTotalXp, base_xp_requirement, xp_multiplier]
  rw [levelSearch_step]; norm_num [geomTotalXp, base_xp_requirement, xp_multiplier]
  rw [levelSearch_step]; norm_num

/-- C4: in a single `add_xp` call the prestige counter increments at most
once, and whenever the new level reaches the threshold while the old one
was below it — however far the overshoot — exactly one prestige fires and
XP and level are reset to 0, discarding the overflow XP. -/
theorem add_xp_prestige_once (today : String) (s : BotState) (u : ℕ) (amount : ℚ) :
    dictGetD (add_xp today s u amount).2.user_prestige u 0 ≤ dictGetD s.user_prestige u 0 + 1
    ∧ (prestige_threshold ≤ calculate_level_from_xp (dictGetD s.user_xp u 0 + amount) →
       dictGetD s.user_level u 0 < prestige_threshold →
       (add_xp today s u amount).1.prestiged = true
       ∧ dictGetD (add_xp today s u amount).2.user_prestige u 0 =
           dictGetD s.user_prestige u 0 + 1
       ∧ dictGetD (add_xp today s u amount).2.user_xp u 0 = 0
       ∧ dictGetD (add_xp today s u amount).2.user_level u 0 = 0) := by
  simp only [add_xp]
  by_cases hc : prestige_threshold ≤ calculate_level_from_xp (dictGetD s.user_xp u 0 + amount)
      ∧ dictGetD s.user_level u 0 < prestige_threshold
  · simp only [if_pos hc]
    refine ⟨?_, fun _ _ => ⟨trivial, ?_, ?_, ?_⟩⟩ <;> simp [dictGetD_set_self]
  · simp only [if_neg hc]
    constructor
    · have h : ((if dictGetD s.user_level u 0 < calculate_level_from_xp (dictGetD s.user_xp u 0 + amount) then
          update_daily_stats today
            (check_achievements
              { s with
                user_xp := dictSet s.user_xp u (dictGetD s.user_xp u 0 + amount),
                user_level := dictSet s.user_level u
                  (calculate_level_from_xp (dictGetD s.user_xp u 0 + amount)) }
              u (dictGetD s.user_xp u 0 + amount)
              (calculate_level_from_xp (dictGetD s.user_xp u 0 + amount)))
            (some u) 0 0 0 true false false
        else
          check_achievements
            { s with
              user_xp := dictSet s.user_xp u (dictGetD s.user_xp u 0 + amount),
              user_level := dictSet s.user_level u
                (calculate_level_from_xp (dictGetD s.user_xp u 0 + amount)) }
            u (dictGetD s.user_xp u 0 + amount)
            (calculate_level_from_xp (dictGetD s.user_xp u 0 + amount))) :
          BotState).user_prestige = s.user_prestige := by
        simp [apply_ite BotState.user_prestige, ite_self]
      simp only [h]
      omega
    · intro h1 h2
      exact absurd ⟨h1, h2⟩ hc

theorem add_xp_prestige_once_witness :
    prestige_threshold ≤
      calculate_level_from_xp (dictGetD emptyBotState.user_xp 1 0 + 2000000000)
    ∧ dictGetD emptyBotState.user_level 1 0 < prestige_threshold
    ∧ (add_xp "2025-01-02" emptyBotState 1 2000000000).1.prestiged = true
    ∧ dictGetD (add_xp "2025-01-02" emptyBotState 1 2000000000).2.user_prestige 1 0 =
        dictGetD emptyBotState.user_prestige 1 0 + 1
    ∧ dictGetD (add_xp "2025-01-02" emptyBotState 1 2000000000).2.user_xp 1 0 = 0
    ∧ dictGetD (add_xp "2025-01-02" emptyBotState 1 2000000000).2.user_level 1 0 = 0 := by
  have h1 : prestige_threshold ≤
      calculate_level_from_xp (dictGetD emptyBotState.user_xp 1 0 + 2000000000) := by
    simp [emptyBotState, dictGetD, dictGet?, calculate_level_from_xp_two_billion, prestige_threshold]
  have h2 : dictGetD emptyBotState.user_level 1 0 < prestige_threshold := by
    simp [emptyBotState, dictGetD, dictGet?, prestige_threshold]
  have h := (add_xp_prestige_once "2025-01-02" emptyBotState 1 2000000000).2 h1 h2
  exact ⟨h1, h2, h.1, h.2.1, h.2.2.1, h.2.2.2⟩

theorem update_daily_stats_date (today : String) (s : BotState) (uid : Option ℕ)
    (m : ℕ) (xp vt : ℚ) (lu pf nm : Bool) :
    (update_daily_stats today s uid m xp vt lu pf nm).daily_stats.date = today := by
  by_cases h : s.daily_stats.date = today <;>
    simp [update_daily_stats, reset_daily_stats, h, emptyDailyStats,
      apply_ite BotState.daily_stats]

/-- C7: the daily rollover check (the date test at the head of
`update_daily_stats`, which calls `reset_daily_stats` on a date change) is
idempotent while the calendar date is unchanged: a second zero-increment
update is a no-op, and any second update on the same date writes no further
history entry (so no frozen entry is overwritten) and accumulates counters
additively on top of the first (no data loss for the current day). -/
theorem daily_rollover_idempotent (today : String) (s : BotState)
    (uid : Option ℕ) (m : ℕ) (xp vt : ℚ) (lu pf nm : Bool) :
    update_daily_stats today (update_daily_stats today s none 0 0 0 false false false)
        none 0 0 0 false false false
      = update_daily_stats today s none 0 0 0 false false false
    ∧ (update_daily_stats today (update_daily_stats today s none 0 0 0 false false false)
        uid m xp vt lu pf nm).daily_history
      = (update_daily_stats today s none 0 0 0 false false false).daily_history
    ∧ (update_daily_stats today (update_daily_stats today s none 0 0 0 false false false)
        uid m xp vt lu pf nm).daily_stats.messages
      = (update_daily_stats today s none 0 0 0 false false false).daily_stats.messages + m
    ∧ (update_daily_stats today (update_daily_stats today s none 0 0 0 false false false)
        uid m xp vt lu pf nm).daily_stats.xp_gained
      = (update_daily_stats today s none 0 0 0 false false false).daily_stats.xp_gained + xp
    ∧ (update_daily_stats today (update_daily_stats today s none 0 0 0 false false false)
        uid m xp vt lu pf nm).daily_stats.voice_time
      = (update_daily_stats today s none 0 0 0 false false false).daily_stats.voice_time + vt := by
  have hdate : (update_daily_stats today s none 0 0 0 false false false).daily_stats.date
      = today := update_daily_stats_date today s none 0 0 0 false false false
  generalize hgen : update_daily_stats today s none 0 0 0 false false false = t
  rw [hgen] at hdate
  refine ⟨?_, ?_, ?_, ?_, ?_⟩ <;>
    simp [update_daily_stats, hdate]
  rw [← hdate]

/-- C6: on the first qualifying message of a calendar day (stored
`last_daily` differs from `today`) the daily-bonus multiplier enters the
XP formula and the streak updates — incremented when `last_daily` was
exactly yesterday, reset to 1 otherwise — and `last_daily` becomes
`today`; on a later message the same day the state (streak included) is
unchanged. -/
theorem message_xp_daily_bonus_and_streak (today yesterday : String) (bHit : Bool)
    (bAmt : ℕ) (s : BotState) (u : ℕ) :
    (dictGetD s.user_last_daily u "" ≠ today →
        dictGetD (calculate_message_xp today yesterday bHit bAmt s u).2.user_daily_streak u 0 =
          (if dictGetD s.user_last_daily u "" = yesterday
           then dictGetD s.user_daily_streak u 0 + 1 else 1)
        ∧ dictGetD (calculate_message_xp today yesterday bHit bAmt s u).2.user_last_daily u ""
            = today
        ∧ (calculate_message_xp today yesterday bHit bAmt s u).1 =
            base_message_xp *
              (if streak_bonus_days ≤
                  dictGetD (calculate_message_xp today yesterday bHit bAmt s u).2.user_daily_streak u 0
               then daily_bonus_multiplier * streak_bonus_multiplier
               else daily_bonus_multiplier)
            + (if bHit then (bAmt : ℚ) else 0))
    ∧ (dictGetD s.user_last_daily u "" = today →
        (calculate_message_xp today yesterday bHit bAmt s u).2 = s) := by
  by_cases h : dictGetD s.user_last_daily u "" = today
  · refine ⟨fun hne => absurd h hne, fun _ => ?_⟩
    simp [calculate_message_xp, h]
  · refine ⟨fun _ => ?_, fun heq => absurd heq h⟩
    by_cases h2 : dictGetD s.user_last_daily u "" = yesterday
    · rw [h2] at h
      simp [calculate_message_xp, h2, h, dictGetD_set_self]
    · simp [calculate_message_xp, h, h2, dictGetD_set_self]

def streakSample : BotState :=
  { emptyBotState with
    user_last_daily := [(1, "2025-01-01")], user_daily_streak := [(1, 1)] }

theorem message_xp_daily_bonus_witness :
    dictGetD streakSample.user_last_daily 1 "" ≠ "2025-01-02"
    ∧ dictGetD (calculate_message_xp "2025-01-02" "2025-01-01" false 0
        streakSample 1).2.user_daily_streak 1 0 = 2
    ∧ dictGetD (calculate_message_xp "2025-01-02" "2025-01-01" false 0
        streakSample 1).2.user_last_daily 1 "" = "2025-01-02"
    ∧ (calculate_message_xp "2025-01-02" "2025-01-01" false 0 streakSample 1).1 = 3 := by
  have hne : dictGetD streakSample.user_last_daily 1 "" ≠ "2025-01-02" := by
    simp [streakSample, emptyBotState, dictGetD, dictGet?]
  have h := (message_xp_daily_bonus_and_streak "2025-01-02" "2025-01-01" false 0
    streakSample 1).1 hne
  have hstreak : dictGetD (calculate_message_xp "2025-01-02" "2025-01-01" false 0
      streakSample 1).2.user_daily_streak 1 0 = 2 := by
    rw [h.1]
    simp [streakSample, emptyBotState, dictGetD, dictGet?]
  refine ⟨hne, hstreak, h.2.1, ?_⟩
  rw [h.2.2, hstreak]
  norm_num [base_message_xp, daily_bonus_multiplier, streak_bonus_days,
    streak_bonus_multiplier]

/-- C5 (amended): a guild message inside the anti-spam cooldown window
awards no XP — XP, level, prestige, streak, daily date, message count,
cooldown timestamp, voice time, daily stats and daily history are all
unchanged — but the global `total_server_messages` counter still
increments, and a first-time sender is still granted the
`first_message` achievement, both of which happen before the cooldown
gate. -/
theorem on_message_cooldown_effects (now : ℚ) (today yesterday : String) (bHit : Bool)
    (bAmt : ℕ) (s : BotState) (u : ℕ)
    (h : now - dictGetD s.user_last_message u 0 < antispam_cooldown_sec) :
    (on_guild_message now today yesterday bHit bAmt s u).user_xp = s.user_xp
    ∧ (on_guild_message now today yesterday bHit bAmt s u).user_level = s.user_level
    ∧ (on_guild_message now today yesterday bHit bAmt s u).user_prestige = s.user_prestige
    ∧ (on_guild_message now today yesterday bHit bAmt s u).user_daily_streak
        = s.user_daily_streak
    ∧ (on_guild_message now today yesterday bHit bAmt s u).user_last_daily = s.user_last_daily
    ∧ (on_guild_message now today yesterday bHit bAmt s u).user_message_count
        = s.user_message_count
    ∧ (on_guild_message now today yesterday bHit bAmt s u).user_last_message
        = s.user_last_message
    ∧ (on_guild_message now today yesterday bHit bAmt s u).user_voice_time = s.user_voice_time
    ∧ (on_guild_message now today yesterday bHit bAmt s u).daily_stats = s.daily_stats
    ∧ (on_guild_message now today yesterday bHit bAmt s u).daily_history = s.daily_history
    ∧ (on_guild_message now today yesterday bHit bAmt s u).total_server_messages
        = s.total_server_messages + 1
    ∧ (on_guild_message now today yesterday bHit bAmt s u).user_achievements
        = (if dictContains s.user_message_count u then s.user_achievements
           else (award_achievement s u "first_message").user_achievements) := by
  have hc : ¬ antispam_cooldown_sec ≤ now - dictGetD s.user_last_message u 0 := not_le.mpr h
  simp only [on_guild_message, if_neg hc]
  by_cases hm : dictContains s.user_message_count u = true
  · simp [hm]
  · simp only [Bool.not_eq_true] at hm
    simp [hm, award_achievement]

def cooldownSample : BotState :=
  { emptyBotState with user_last_message := [(1, 100)] }

theorem on_message_cooldown_witness :
    (102 : ℚ) - dictGetD cooldownSample.user_last_message 1 0 < antispam_cooldown_sec
    ∧ (on_guild_message 102 "2025-01-02" "2025-01-01" false 0 cooldownSample 1).user_xp
        = cooldownSample.user_xp
    ∧ (on_guild_message 102 "2025-01-02" "2025-01-01" false 0 cooldownSample 1).user_level
        = cooldownSample.user_level
    ∧ (on_guild_message 102 "2025-01-02" "2025-01-01" false 0
        cooldownSample 1).total_server_messages
        = cooldownSample.total_server_messages + 1 := by
  have h : (102 : ℚ) - dictGetD cooldownSample.user_last_message 1 0
      < antispam_cooldown_sec := by
    norm_num [cooldownSample, emptyBotState, dictGetD, dictGet?, antispam_cooldown_sec]
  have hall := on_message_cooldown_effects 102 "2025-01-02" "2025-01-01" false 0
    cooldownSample 1 h
  exact ⟨h, hall.1, hall.2.1, hall.2.2.2.2.2.2.2.2.2.2.1⟩

/-- C5 (counterexample): a message arriving 2 seconds after the previous
one (inside the 5-second cooldown) is *not* a complete no-op: the global
`total_server_messages` counter still increments and the sender's
achievement set still changes (`first_message` is awarded before the
cooldown gate). -/
theorem on_message_cooldown_not_noop :
    (102 : ℚ) - dictGetD cooldownSample.user_last_message 1 0 < antispam_cooldown_sec
    ∧ (on_guild_message 102 "2025-01-02" "2025-01-01" false 0
        cooldownSample 1).total_server_messages
        ≠ cooldownSample.total_server_messages
    ∧ (on_guild_message 102 "2025-01-02" "2025-01-01" false 0
        cooldownSample 1).user_achievements
        ≠ cooldownSample.user_achievements := by
  refine ⟨?_, ?_, ?_⟩
  · norm_num [cooldownSample, emptyBotState, dictGetD, dictGet?, antispam_cooldown_sec]
  · norm_num [on_guild_message, cooldownSample, emptyBotState, dictGetD, dictGet?,
      dictContains, antispam_cooldown_sec, award_achievement, dictSet, setAdd]
  · norm_num [on_guild_message, cooldownSample, emptyBotState, dictGetD, dictGet?,
      dictContains, antispam_cooldown_sec, award_achievement, dictSet, setAdd]

theorem dictContains_false_forall {κ α : Type} [DecidableEq κ] (d : PyDict κ α) (k : κ)
    (h : dictContains d k = false) : ∀ p ∈ d, p.1 ≠ k := by
  induction d with
  | nil => simp
  | cons hd tl ih =>
      obtain ⟨k0, v0⟩ := hd
      by_cases hk : k = k0
      · simp [dictContains, dictGet?, hk] at h
      · simp only [dictContains, dictGet?, if_neg hk] at h
        intro p hp
        rcases List.mem_cons.mp hp with hp1 | hp1
        · subst hp1
          simpa using fun hh => hk hh.symm
        · exact ih h p hp1

theorem rankLoop_of_not_mem (l : List (ℕ × ℚ)) (u : ℕ) :
    ∀ i : ℕ, (∀ p ∈ l, p.1 ≠ u) → rankLoop l u i = i + l.length := by
  induction l with
  | nil => intro i _; simp [rankLoop]
  | cons hd tl ih =>
      intro i h
      obtain ⟨k0, v0⟩ := hd
      have hne : k0 ≠ u := h (k0, v0) (by simp)
      simp only [rankLoop, if_neg hne]
      rw [ih (i + 1) (fun p hp => h p (by simp [hp]))]
      simp
      omega

theorem sorted_leaderboard_keys (s : BotState) (u : ℕ)
    (h : dictContains s.user_xp u = false) :
    ∀ p ∈ get_sorted_leaderboard s, p.1 ≠ u := by
  intro p hp
  have hmem : p ∈ (s.user_xp.map (fun kv => (kv.1, get_leaderboard_score s kv.1))).filter
      (fun x => 0 < x.2) := by
    have hperm := List.perm_insertionSort
      (fun a b : ℕ × ℚ => b.2 ≤ a.2)
      ((s.user_xp.map (fun kv => (kv.1, get_leaderboard_score s kv.1))).filter
        (fun x => 0 < x.2))
    exact hperm.mem_iff.mp hp
  have hmem2 : p ∈ s.user_xp.map (fun kv => (kv.1, get_leaderboard_score s kv.1)) :=
    List.mem_of_mem_filter hmem
  obtain ⟨kv, hkv, hpkv⟩ := List.mem_map.mp hmem2
  have := dictContains_false_forall s.user_xp u h kv hkv
  rw [← hpkv]
  simpa using this

/-- C3 (amended): a user absent from the XP map gets rank 1 only when
*no* user has recorded XP (`user_xp` empty); as soon as the map is
non-empty, an absent user never matches in the leaderboard loop and is
ranked `len(leaderboard) + 1`, i.e. after every listed user. -/
theorem get_user_rank_no_xp (s : BotState) (u : ℕ) :
    (s.user_xp = [] → get_user_rank s u = 1)
    ∧ (dictContains s.user_xp u = false →
        get_user_rank s u =
          if s.user_xp.isEmpty then 1 else (get_sorted_leaderboard s).length + 1) := by
  constructor
  · intro h
    simp [get_user_rank, h]
  · intro h
    by_cases he : s.user_xp.isEmpty
    · simp [get_user_rank, he]
    · simp only [get_user_rank, he, if_false, Bool.false_eq_true]
      rw [rankLoop_of_not_mem _ _ 1 (sorted_leaderboard_keys s u h)]
      omega

def rankSample : BotState := { emptyBotState with user_xp := [(1, 10)] }

/-- C3 (counterexample): with one other user holding 10 XP, a user with no
recorded XP is ranked 2 (after the scored user), not 1 as the claim
states. -/
theorem get_user_rank_not_one :
    dictContains rankSample.user_xp 2 = false ∧ get_user_rank rankSample 2 = 2 := by
  constructor
  · simp [rankSample, emptyBotState, dictContains, dictGet?]
  · norm_num [get_user_rank, rankSample, emptyBotState, get_sorted_leaderboard,
      get_leaderboard_score, dictGetD, dictGet?, rankLoop, List.insertionSort,
      List.orderedInsert, voice_weight_factor, List.filter]

theorem get_user_rank_no_xp_witness :
    (emptyBotState.user_xp = [] ∧ get_user_rank emptyBotState 7 = 1)
    ∧ (dictContains rankSample.user_xp 2 = false
       ∧ get_user_rank rankSample 2 =
           if rankSample.user_xp.isEmpty then 1
           else (get_sorted_leaderboard rankSample).length + 1) := by
  have hc : dictContains rankSample.user_xp 2 = false := by
    simp [rankSample, emptyBotState, dictContains, dictGet?]
  exact ⟨⟨rfl, (get_user_rank_no_xp emptyBotState 7).1 rfl⟩,
         ⟨hc, (get_user_rank_no_xp rankSample 2).2 hc⟩⟩

/-- C9 (amended): `add_xp` itself applies the amount unguarded, but every
XP amount the pipeline feeds it is strictly positive — message XP is
always positive (base 2 times multipliers at least 1, plus a non-negative
bonus), and the voice path only awards for sessions of at least one
minute — so XP stays non-negative under positive awards and the
voice-minute total never decreases (hence never becomes negative). -/
theorem xp_amount_guards :
    (∀ today yesterday : String, ∀ bHit : Bool, ∀ bAmt : ℕ, ∀ s : BotState, ∀ u : ℕ,
        0 < (calculate_message_xp today yesterday bHit bAmt s u).1)
    ∧ (∀ today : String, ∀ s : BotState, ∀ u : ℕ, ∀ amount : ℚ, 0 < amount →
        0 ≤ dictGetD s.user_xp u 0 →
        0 ≤ dictGetD (add_xp today s u amount).2.user_xp u 0)
    ∧ (∀ today : String, ∀ now : ℚ, ∀ s : BotState, ∀ u : ℕ,
        dictGetD s.user_voice_time u 0 ≤
          dictGetD (on_voice_leave today now s u).user_voice_time u 0) := by
  refine ⟨?_, ?_, ?_⟩
  · intro today yesterday bHit bAmt s u
    simp only [calculate_message_xp, base_message_xp, daily_bonus_multiplier,
      streak_bonus_multiplier]
    split_ifs <;> positivity
  · intro today s u amount hpos hnn
    simp only [add_xp]
    by_cases hc : prestige_threshold ≤
        calculate_level_from_xp (dictGetD s.user_xp u 0 + amount)
        ∧ dictGetD s.user_level u 0 < prestige_threshold
    · simp [if_pos hc, dictGetD_set_self]
    · simp only [if_neg hc]
      have h : dictGetD
          ((if dictGetD s.user_level u 0 <
              calculate_level_from_xp (dictGetD s.user_xp u 0 + amount) then
            update_daily_stats today
              (check_achievements
                { s with
                  user_xp := dictSet s.user_xp u (dictGetD s.user_xp u 0 + amount),
                  user_level := dictSet s.user_level u
                    (calculate_level_from_xp (dictGetD s.user_xp u 0 + amount)) }
                u (dictGetD s.user_xp u 0 + amount)
                (calculate_level_from_xp (dictGetD s.user_xp u 0 + amount)))
              (some u) 0 0 0 true false false
          else
            check_achievements
              { s with
                user_xp := dictSet s.user_xp u (dictGetD s.user_xp u 0 + amount),
                user_level := dictSet s.user_level u
                  (calculate_level_from_xp (dictGetD s.user_xp u 0 + amount)) }
              u (dictGetD s.user_xp u 0 + amount)
              (calculate_level_from_xp (dictGetD s.user_xp u 0 + amount)) :
            BotState)).user_xp u 0 = dictGetD s.user_xp u 0 + amount := by
        simp [apply_ite BotState.user_xp, ite_self, dictGetD_set_self]
      rw [h]
      linarith
  · intro today now s u
    simp only [on_voice_leave]
    cases hget : dictGet? s.voice_start_times u with
    | none => simp
    | some start =>
        by_cases hd : (1:ℚ) ≤ (now - start) / 60
        · simp only [if_pos hd, dictGetD_set_self]
          have : (0:ℚ) < (now - start) / 60 := by linarith
          simp [dictGetD_set_self]
          linarith
        · simp [if_neg hd]

theorem xp_amount_guards_witness :
    0 < (calculate_message_xp "2025-01-02" "2025-01-01" false 0 emptyBotState 1).1
    ∧ (0:ℚ) < 2 ∧ (0:ℚ) ≤ dictGetD emptyBotState.user_xp 1 0
    ∧ 0 ≤ dictGetD (add_xp "2025-01-02" emptyBotState 1 2).2.user_xp 1 0
    ∧ dictGetD emptyBotState.user_voice_time 1 0 ≤
        dictGetD (on_voice_leave "2025-01-02" 100 emptyBotState 1).user_voice_time 1 0 := by
  have h0 : (0:ℚ) ≤ dictGetD emptyBotState.user_xp 1 0 := by
    simp [emptyBotState, dictGetD, dictGet?]
  exact ⟨xp_amount_guards.1 "2025-01-02" "2025-01-01" false 0 emptyBotState 1,
         by norm_num, h0,
         xp_amount_guards.2.1 "2025-01-02" emptyBotState 1 2 (by norm_num) h0,
         xp_amount_guards.2.2 "2025-01-02" 100 emptyBotState 1⟩

def negSample : BotState := { emptyBotState with user_xp := [(1, 10)] }

/-- C9 (counterexample): `add_xp` neither rejects nor clamps a negative
amount — adding −5 to a user holding 10 XP leaves them with 5 XP, strictly
less than before, refuting "the state after `add_xp(user, amount ≤ 0)` has
xp no smaller than before". -/
theorem add_xp_negative_decreases :
    (-5 : ℚ) ≤ 0
    ∧ dictGetD (add_xp "2025-01-02" negSample 1 (-5)).2.user_xp 1 0
        < dictGetD negSample.user_xp 1 0 := by
  have h5 : calculate_level_from_xp 5 = 0 := calculate_level_from_xp_of_lt_15 (by norm_num)
  constructor
  · norm_num
  · simp only [add_xp]
    norm_num [negSample, emptyBotState, dictGetD, dictGet?, dictSet,
      prestige_threshold, h5]

theorem map_strKey_intKey {α : Type} (l : PyDict ℕ α) :
    (l.map (fun kv => (strKey kv.1, kv.2))).map (fun kv => (intKey kv.1, kv.2)) = l := by
  rw [List.map_map]
  have h : ((fun kv : List ℕ × α => (intKey kv.1, kv.2)) ∘
      fun kv : ℕ × α => (strKey kv.1, kv.2)) = id := by
    funext kv
    simp [strKey, intKey, Function.comp, Nat.ofDigits_digits]
  rw [h, List.map_id]

theorem map_strKey_intKey_dedup (l : PyDict ℕ (List String))
    (h : ∀ kv ∈ l, kv.2.Nodup) :
    (l.map (fun kv => (strKey kv.1, kv.2))).map (fun kv => (intKey kv.1, kv.2.dedup)) = l := by
  induction l with
  | nil => simp
  | cons hd tl ih =>
      obtain ⟨k, v⟩ := hd
      have h1 : v.Nodup := h (k, v) (by simp)
      simp only [List.map_cons, List.cons.injEq]
      refine ⟨?_, ih (fun kv hkv => h kv (by simp [hkv]))⟩
      simp [strKey, intKey, Nat.ofDigits_digits, List.dedup_eq_self.mpr h1]

/-- C8: saving and loading into a fresh state reproduces an
observationally identical state — every user's XP, level, prestige,
streak, message count, voice time and achievement set, plus the events
text, total message counter, current daily stats and full daily history
are equal, with set-valued fields (achievements, active users; stored as
duplicate-free lists) round-tripping through their list encoding. -/
theorem save_load_roundtrip (s : BotState)
    (hach : ∀ kv ∈ s.user_achievements, kv.2.Nodup)
    (hactive : s.daily_stats.active_users.Nodup) :
    (load_data (save_data s)).user_xp = s.user_xp
    ∧ (load_data (save_data s)).user_level = s.user_level
    ∧ (load_data (save_data s)).user_prestige = s.user_prestige
    ∧ (load_data (save_data s)).user_daily_streak = s.user_daily_streak
    ∧ (load_data (save_data s)).user_last_daily = s.user_last_daily
    ∧ (load_data (save_data s)).user_message_count = s.user_message_count
    ∧ (load_data (save_data s)).user_voice_time = s.user_voice_time
    ∧ (load_data (save_data s)).user_achievements = s.user_achievements
    ∧ (load_data (save_data s)).events_message = s.events_message
    ∧ (load_data (save_data s)).total_server_messages = s.total_server_messages
    ∧ (load_data (save_data s)).daily_stats = s.daily_stats
    ∧ (load_data (save_data s)).daily_history = s.daily_history := by
  simp only [load_data, save_data]
  refine ⟨map_strKey_intKey _, map_strKey_intKey _, map_strKey_intKey _,
    map_strKey_intKey _, map_strKey_intKey _, map_strKey_intKey _, map_strKey_intKey _,
    map_strKey_intKey_dedup _ hach, trivial, trivial, ?_, trivial⟩
  rw [List.dedup_eq_self.mpr hactive]

def roundSample : BotState :=
  { emptyBotState with
    user_xp := [(1, 10)],
    user_achievements := [(1, ["first_message"])],
    daily_stats := { emptyDailyStats with date := "2025-01-01", active_users := [1] } }

theorem save_load_roundtrip_witness :
    (∀ kv ∈ roundSample.user_achievements, List.Nodup kv.2)
    ∧ roundSample.daily_stats.active_users.Nodup
    ∧ (load_data (save_data roundSample)).user_xp = roundSample.user_xp
    ∧ (load_data (save_data roundSample)).user_achievements = roundSample.user_achievements
    ∧ (load_data (save_data roundSample)).daily_stats = roundSample.daily_stats := by
  have h1 : ∀ kv ∈ roundSample.user_achievements, List.Nodup kv.2 := by
    simp [roundSample, emptyBotState]
  have h2 : roundSample.daily_stats.active_users.Nodup := by
    simp [roundSample, emptyBotState, emptyDailyStats]
  have h := save_load_roundtrip roundSample h1 h2
  exact ⟨h1, h2, h.1, h.2.2.2.2.2.2.2.1, h.2.2.2.2.2.2.2.2.2.2.1⟩
